import Mathlib

/-!
Verification of the citation-checking evidence pipeline.

This file gives a shallow embedding, in Lean 4, of the retrieval and
adjudication core of the repository (backend/main.py, backend/retriever.py,
backend/nli.py, backend/parser.py, backend/bl_client.py, frontend/ui.py)
and settles a fixed list of claims about it.

Modelling conventions:
* Python floats become rationals (ℚ); the claims under study only compare,
  filter and reorder scores, they never depend on rounding.
* External collaborators (the embedding service, the completion service,
  the HuggingFace classifier pipeline, `json.loads`, faiss search and
  faiss L2-normalisation) are parameters ("oracles") of the embedded
  functions, exactly where the source calls out to them.
* A Python exception that the source lets propagate is an `Except.error`;
  a `try/except` that swallows the exception is a total branch.
* Python dictionaries used as records become structures; optional keys
  become `Option` fields (`meta.get(k)` is the `Option` value,
  `meta.get(k, d)` is `.getD d`).
-/

/-! ## Python string primitives used by the sources -/

/-- Whether `needle` occurs at the head of `hay` (character-wise). -/
def subAt : List Char → List Char → Bool
  | [], _ => true
  | _ :: _, [] => false
  | a :: as, b :: bs => a == b && subAt as bs

/-- Whether `needle` occurs anywhere in `hay`; Python's `needle in hay`
for strings (the empty needle occurs in every string). -/
def hasSubL (needle : List Char) : List Char → Bool
  | [] => subAt needle []
  | c :: rest => subAt needle (c :: rest) || hasSubL needle rest

/-- Python's substring test `needle in hay`. -/
def strContains (hay needle : String) : Bool :=
  hasSubL needle.toList hay.toList

/-- Split a character list at newline characters (keeping empty pieces). -/
def splitCharsOnNl : List Char → List (List Char)
  | [] => [[]]
  | c :: rest =>
    if c == '\n' then [] :: splitCharsOnNl rest
    else match splitCharsOnNl rest with
      | g :: gs => (c :: g) :: gs
      | [] => [[c]]

/-- Python's `str.splitlines` restricted to newline separators, which is
the only separator the segmenter outputs contain. -/
def splitLinesPy (s : String) : List String :=
  (splitCharsOnNl s.toList).map String.mk

/-- Python's `str.strip()` (whitespace from both ends). -/
def trimPy (s : String) : String :=
  String.mk (((s.toList.dropWhile Char.isWhitespace).reverse.dropWhile Char.isWhitespace).reverse)

/-- Python's `str.lower()` (the sources only lower-case ASCII data). -/
def toLowerPy (s : String) : String :=
  String.mk (s.toList.map Char.toLower)

/-- First whitespace-delimited token of a string: `s.split(maxsplit=1)[0]`
in Python, with `""` for a blank string (the sources never apply it to a
blank string). -/
def firstToken (s : String) : String :=
  String.mk ((s.toList.dropWhile Char.isWhitespace).takeWhile (fun c => !c.isWhitespace))

/-! ## Data model: chunk metadata, chunks, retrieval hits

In the source a chunk is `{"text": ..., "meta": {...}}` and a retrieval
hit is `{"score": ..., "text": ..., "meta": ...}` (retriever.py lines
64-68).  Only the metadata keys the studied code paths read are modelled:
`type`, `id`, `chunk_id` and `source`, each optional as in the dicts the
parser builds. -/

structure MetaD where
  type? : Option String := none
  id? : Option String := none
  chunkId? : Option String := none
  source? : Option String := none
  deriving DecidableEq, Repr

structure Chunk where
  text : String
  meta : MetaD
  deriving DecidableEq, Repr

structure Hit where
  score : ℚ
  text : String
  meta : MetaD
  deriving DecidableEq, Repr

/-! ## Per-claim candidate selection (backend/main.py lines 112-118)

```
candidates = r.query(claim, k=12)
sentence_chunks = [c for c in candidates if c["meta"].get("type") == "sentence"]
if len(sentence_chunks) >= 6:
    chosen = sentence_chunks[:6]
else:
    chosen = sentence_chunks + candidates[: 6 - len(sentence_chunks)]
```
-/

/-- The two-tier candidate selection of `_process_sentence`, applied to the
score-ranked candidate list returned by `Retriever.query`. -/
def chooseCandidates (candidates : List Hit) : List Hit :=
  let sentence_chunks := candidates.filter fun c => c.meta.type? == some "sentence"
  if 6 ≤ sentence_chunks.length then
    sentence_chunks.take 6
  else
    sentence_chunks ++ candidates.take (6 - sentence_chunks.length)

/-! Concrete ranked candidate list exercising the backfill branch:
two sentence-type hits ranked first, then ten non-sentence hits. -/

/-- Sentence-type candidate with the given score. -/
def sentHit (sc : ℚ) (t : String) : Hit :=
  { score := sc, text := t, meta := { type? := some "sentence", id? := some t } }

/-- Paragraph-type candidate with the given score. -/
def paraHit (sc : ℚ) (t : String) : Hit :=
  { score := sc, text := t, meta := { type? := some "paragraph", id? := some t } }

/-- Ranked candidate list with 2 sentence-type hits (scores 12, 11) ahead
of 10 paragraph-type hits (scores 10 down to 1). -/
def backfillInput : List Hit :=
  [sentHit 12 "s1", sentHit 11 "s2",
   paraHit 10 "o1", paraHit 9 "o2", paraHit 8 "o3", paraHit 7 "o4",
   paraHit 6 "o5", paraHit 5 "o6", paraHit 4 "o7", paraHit 3 "o8",
   paraHit 2 "o9", paraHit 1 "o10"]

/-! ## Retriever.query / Retriever.query_many (backend/retriever.py lines 49-94)

`utils.embed` (the remote embedding service), `faiss.normalize_L2` and
`index.search` are external calls and appear as oracle parameters.  A
successful faiss search of one row over an index of `n` vectors returns
`(distance, row)` pairs with rows in range, modelled as `ℚ × Fin n`
against the retained chunk list (backend/retriever.py keeps `self.chunks`
aligned with index rows); the search call can also raise — the CPU
wrapper asserts `d == self.d` on the query matrix's width — so the
per-row search oracle returns `Except`.  `IndexFlat` searches the rows of
a query matrix independently, and the rows of a numpy matrix all share
one width, so searching the matrix is searching its rows in order with
the first failure faulting the whole call. -/

/-- Result loop of `Retriever.query` (retriever.py lines 59-69): walk the
`(distance, index)` pairs returned by the faiss search, drop every pair
whose distance is below `min_score`, and map the rest back to chunks. -/
def queryLoop (chunks : List Chunk) (minScore : ℚ) :
    List (ℚ × Fin chunks.length) → List Hit
  | [] => []
  | di :: rest =>
    if di.1 < minScore then
      queryLoop chunks minScore rest
    else
      { score := di.1, text := (chunks.get di.2).text, meta := (chunks.get di.2).meta }
        :: queryLoop chunks minScore rest

/-- Inner result loop of `Retriever.query_many` (retriever.py lines 82-93),
a textual duplicate of the `query` loop in the source. -/
def queryManyLoop (chunks : List Chunk) (minScore : ℚ) :
    List (ℚ × Fin chunks.length) → List Hit
  | [] => []
  | di :: rest =>
    if di.1 < minScore then
      queryManyLoop chunks minScore rest
    else
      { score := di.1, text := (chunks.get di.2).text, meta := (chunks.get di.2).meta }
        :: queryManyLoop chunks minScore rest

/-- Row-wise search of a query matrix: `index.search(arr, k)` searches
each row of `arr` independently, and the first failing row (a width that
trips the `d == self.d` assertion) faults the whole call. -/
def searchRows (search : List ℚ → ℕ → Except String (List (ℚ × Fin n)))
    (k : ℕ) : List (List ℚ) → Except String (List (List (ℚ × Fin n)))
  | [] => .ok []
  | v :: rest => do
    let r ← search v k
    let rs ← searchRows search k rest
    .ok (r :: rs)

/-- Embedding of `Retriever.query` (retriever.py lines 49-69): embed the
single query text, build the query matrix — `np.array(raw_emb)` is
1-dimensional exactly when a one-vector-per-text provider returned no
rows, and `reshape(1, -1)` then yields the single zero-length row —
L2-normalize row-wise, search, and run the result loop on the first
result row (`distances[0]`, `indices[0]`; reading row 0 of an empty
result would raise `IndexError`, a dead branch since the matrix always
has a row). -/
def queryR (embedL : List String → List (List ℚ)) (normalizeV : List ℚ → List ℚ)
    (chunks : List Chunk) (minScore : ℚ)
    (search : List ℚ → ℕ → Except String (List (ℚ × Fin chunks.length)))
    (text : String) (k : ℕ) : Except String (List Hit) := do
  let raw_emb := embedL [text]
  let query_embedding := if raw_emb.isEmpty then [[]] else raw_emb
  let searched ← searchRows search k (query_embedding.map normalizeV)
  match searched with
  | [] => Except.error "IndexError"
  | r0 :: _ => Except.ok (queryLoop chunks minScore r0)

/-- Embedding of `Retriever.query_many` (retriever.py lines 71-94): embed
all query texts at once, build the query matrix with the same
`ndim == 1` reshape (at `texts = []` the empty matrix becomes the single
zero-length row), L2-normalize row-wise, search row-wise, then run the
inner result loop on each result row. -/
def queryManyR (embedL : List String → List (List ℚ)) (normalizeV : List ℚ → List ℚ)
    (chunks : List Chunk) (minScore : ℚ)
    (search : List ℚ → ℕ → Except String (List (ℚ × Fin chunks.length)))
    (texts : List String) (k : ℕ) : Except String (List (List Hit)) := do
  let raw_embs := embedL texts
  let arr := if raw_embs.isEmpty then [[]] else raw_embs
  let searched ← searchRows search k (arr.map normalizeV)
  Except.ok (searched.map fun r => queryManyLoop chunks minScore r)

/-! ## embed_documents and Retriever.build (bl_client.py 72-101, retriever.py 29-44) -/

/-- Split a list into the batches of 50 that `embed_documents` sends
(`for start in range(0, len(texts), batch_size)` with `batch_size = 50`). -/
def batchesOf : List α → List (List α)
  | [] => []
  | x :: xs => (x :: xs.take 49) :: batchesOf (xs.drop 49)
termination_by l => l.length
decreasing_by
  simp only [List.length_drop, List.length_cons]
  omega

/-- Accumulate per-batch embedding responses; the first failing batch
raises (`bl_client.py` lines 90-96 re-raise the request exception). -/
def embedBatchesGo (embedBatch : List String → Except String (List (List ℚ))) :
    List (List String) → Except String (List (List ℚ))
  | [] => .ok []
  | b :: rest => do
    let vs ← embedBatch b
    let rest ← embedBatchesGo embedBatch rest
    .ok (vs ++ rest)

/-- Embedding of `embed_documents` (bl_client.py lines 72-101) on the texts of the given
documents, with the per-batch HTTP POST as an oracle. -/
def embedDocuments (embedBatch : List String → Except String (List (List ℚ)))
    (texts : List String) : Except String (List (List ℚ)) :=
  embedBatchesGo embedBatch (batchesOf texts)

/-- Mutable state of a `Retriever`: the faiss index (represented by the
embedding rows it was built from) and the retained chunk list. -/
structure RetrieverState where
  index : Option (List (List ℚ)) := none
  chunks : List Chunk := []
  deriving DecidableEq, Repr

/-- Truncation `chunks[: self.max_sentences] if self.max_sentences else chunks`
(retriever.py line 30). -/
def filteredChunks (maxSentences : Option ℕ) (chunks : List Chunk) : List Chunk :=
  match maxSentences with
  | some m => chunks.take m
  | none => chunks

/-- Embedding of `Retriever.build` (retriever.py lines 29-44): truncate to
`max_sentences`, embed every chunk text through `embed_documents`, then
(and only then) install the new index and chunk list and write the index
file.  The written file is returned next to the new state; on error the
caller's state is untouched and nothing is written, as the source raises
before the assignments on lines 42-44. -/
def buildRet (maxSentences : Option ℕ) (normalizeRows : List (List ℚ) → List (List ℚ))
    (embedBatch : List String → Except String (List (List ℚ)))
    (chunks : List Chunk) :
    Except String (RetrieverState × List (List ℚ)) := do
  let filtered := filteredChunks maxSentences chunks
  let embeddingsList ← embedDocuments embedBatch (filtered.map (·.text))
  let embeddings := normalizeRows embeddingsList
  .ok ({ index := some embeddings, chunks := filtered }, embeddings)

/-! ## build_all (backend/retriever.py lines 96-141) and
tei_and_csv_to_documents (backend/parser.py lines 23-49)

The filesystem side (globbing the folder for XML files and a CSV, reading
them) is external; the embedding takes the parsed TEI chunks and the CSV
rows as inputs.  A document is the dict the parser builds: TEI chunks are
`{"text", "meta": {"source", "type": "sentence"}}` (parser.py lines
137-143), CSV rows become `{"text", "author", "year", "tei_file",
"meta": {"id"}}` (parser.py lines 36-47); `author`/`year`/`tei_file` are
top-level keys, present only on CSV-derived documents, hence `Option`
fields here.  Building the per-paper retrievers only needs the chunk
list each one is built over, so `buildAll` returns the key-to-chunk-list
association (Python dict semantics: insertion order, replacement keeps
the original position). -/

structure CsvRow where
  citedAuthor : String
  citedYear : Int
  teiSentence : String
  teiFile : String
  deriving DecidableEq, Repr

structure Doc where
  text : String
  author? : Option String := none
  year? : Option Int := none
  teiFile? : Option String := none
  meta : MetaD := {}
  deriving DecidableEq, Repr

/-- Embedding of `tei_and_csv_to_documents` (parser.py lines 23-49): TEI chunks first,
then one citing document per CSV row. -/
def teiAndCsvToDocuments (teiDocs : List Doc) (rows : List CsvRow) : List Doc :=
  teiDocs ++ rows.map fun r =>
    { text := r.teiSentence
      author? := some r.citedAuthor
      year? := some r.citedYear
      teiFile? := some r.teiFile
      meta := { id? := some r.teiFile } }

/-- Insert into a Python dict modelled as an association list: replacing a
key keeps its original position, a new key goes to the end. -/
def dictInsert (m : List (String × α)) (k : String) (v : α) : List (String × α) :=
  if m.any fun p => p.1 == k then
    m.map fun p => if p.1 == k then (k, v) else p
  else
    m ++ [(k, v)]

/-- One step of the per-document loop of `build_all` (retriever.py lines
113-126): documents without top-level `author` and `year` are skipped;
for the others a retriever is built over the single-document list
`[doc]` (truncated by `max_sentences`) and stored under
`f"{author}-{year}"`, overwriting any earlier entry. -/
def buildAllStep (maxSentences : Option ℕ) (acc : List (String × List Doc)) (doc : Doc) :
    List (String × List Doc) :=
  match doc.author?, doc.year? with
  | some a, some y =>
    let filtered := match maxSentences with
      | some m => [doc].take m
      | none => [doc]
    dictInsert acc (a ++ "-" ++ toString y) filtered
  | _, _ => acc

/-- Embedding of `build_all` (retriever.py lines 96-141), reduced to the chunk lists
the retrievers are built over: the per-document loop followed by the
"default" index over the documents whose `meta.type` is `"sentence"`. -/
def buildAll (maxSentences : Option ℕ) (teiDocs : List Doc) (rows : List CsvRow) :
    List (String × List Doc) :=
  let docs := teiAndCsvToDocuments teiDocs rows
  let indexes := docs.foldl (buildAllStep maxSentences) []
  let teiSentenceDocs := docs.filter fun d => d.meta.type? == some "sentence"
  let defaultChunks := match maxSentences with
    | some m => teiSentenceDocs.take m
    | none => teiSentenceDocs
  dictInsert indexes "default" defaultChunks

/-! ## EvidenceAdjudicator (backend/nli.py)

The remote strategy's JSON handling needs a JSON value type; `json.loads`
(Python stdlib) is an oracle producing such a value or failing. -/

inductive Json where
  | null
  | bool (b : Bool)
  | num (q : ℚ)
  | str (s : String)
  | arr (xs : List Json)
  | obj (kvs : List (String × Json))

/-- First binding of a key in a JSON object, Python `dict` lookup. -/
def jsonGet (kvs : List (String × Json)) (k : String) : Option Json :=
  match kvs with
  | [] => none
  | (k', v) :: rest => if k' == k then some v else jsonGet rest k

/-- Confidence floor of the local strategy (nli.py line 10). -/
def THRESHOLD : ℚ := 0

/-- One prediction of the local classifier pipeline. -/
structure NliPred where
  label : String
  score : ℚ
  deriving DecidableEq, Repr

/-- Python's `max(preds, key=lambda p: p["score"])` over a non-empty
prediction list (head plus tail): on ties the first maximum wins. -/
def pyMaxPred (p : NliPred) (ps : List NliPred) : NliPred :=
  ps.foldl (fun best q => if best.score < q.score then q else best) p

/-- An evidence dict as the local strategy builds it (nli.py lines 86-93)
and as `_process_sentence` later annotates it (main.py lines 141-142). -/
structure EvDict where
  quote : String := ""
  location : Option String := none
  assessment : String := ""
  chunk_id : Option String := none
  type : Option String := none
  score : Option ℚ := none
  source_id : Option String := none
  source_type : Option String := none
  deriving DecidableEq, Repr

/-- Label-to-assessment mapping of the local strategy (nli.py line 85),
applied to the lower-cased best label:
`"yes" if "entail" in label else ("no" if "contradict" in label else "circumstantial")`. -/
def labelToAssessment (label : String) : String :=
  if strContains label "entail" then "yes"
  else if strContains label "contradict" then "no"
  else "circumstantial"

/-- Local adjudication strategy (nli.py lines 73-94): for each
(passage, metadata) pair run the classifier pipeline on
`f"{claim} [SEP] {text}"`, take the best-scoring prediction, drop it if
its score is below `THRESHOLD`, and otherwise emit an evidence dict.  The
pipeline (a HuggingFace model, external) is an oracle returning the
non-empty prediction list as head-plus-tail. -/
def assessLocal (nliF : String → NliPred × List NliPred) (claim : String)
    (passages : List String) (metadatas : List MetaD) : List EvDict :=
  (passages.zip metadatas).filterMap fun pm =>
    let preds := nliF (claim ++ " [SEP] " ++ pm.1)
    let best := pyMaxPred preds.1 preds.2
    if best.score < THRESHOLD then
      none
    else
      some { quote := pm.1
             location := pm.2.chunkId?
             assessment := labelToAssessment (toLowerPy best.label)
             chunk_id := pm.2.chunkId?
             type := pm.2.type?
             score := some best.score }

/-- Remote adjudication strategy (nli.py lines 95-134): the completion
call (prompt construction plus HTTP POST, lines 100-127) is an oracle
taking the claim, passages and metadata that the source serializes into
the prompt; `json.loads` is the `parse` oracle.  A parse failure, or a
response on which `.get("evidence", [])` would fail because the parsed
value is not a dict, is caught by the bare `except` and becomes the empty
evidence list; otherwise the `"evidence"` value is returned as-is
(defaulting to the empty list when the key is absent). -/
def assessRemote (completionF : String → List String → List MetaD → String)
    (parse : String → Option Json) (claim : String)
    (passages : List String) (metadatas : List MetaD) : Json :=
  match parse (completionF claim passages metadatas) with
  | none => Json.arr []
  | some (Json.obj kvs) => (jsonGet kvs "evidence").getD (Json.arr [])
  | some _ => Json.arr []

/-! ## ClaimSegmenter: seg_via_llm (frontend/ui.py lines 88-162)

The completion call (and its fallback retry) is external; the embedding
takes the response text the call produced for the requested model.  The
parsing pipeline below is the body of `seg_via_llm` after that call. -/

/-- The table `ALIAS_TO_MODEL` (ui.py lines 89-93). -/
def ALIAS_TO_MODEL : List (String × String) :=
  [("alias-large", "alias-large"),
   ("alias-llama3-huge", "alias-llama3-huge"),
   ("alias-embeddings", "alias-embeddings")]

/-- The lookup `ALIAS_TO_MODEL.get(model, model)` (ui.py line 110). -/
def aliasToModel (model : String) : String :=
  match ALIAS_TO_MODEL.find? fun p => p.1 == model with
  | some p => p.2
  | none => model

/-- The constant `DEFAULT_ALIAS` (ui.py line 94). -/
def DEFAULT_ALIAS : String := "alias-large"

/-- Tail of a character list after `c '.'`, for `SEG_RE`. -/
def segRETail : List Char → Bool
  | c :: '.' :: _ =>
    ('a' ≤ c && c ≤ 'z') || ('A' ≤ c && c ≤ 'Z')
  | _ => false

/-- The pattern `SEG_RE = re.compile(r"^\s*\d+[a-z]\.", re.I)` (ui.py line 106):
optional leading whitespace, one or more digits, one ASCII letter
(case-insensitive), then a literal dot; anything may follow. -/
def segREMatch (s : String) : Bool :=
  let cs := s.toList.dropWhile Char.isWhitespace
  let ds := cs.takeWhile Char.isDigit
  !ds.isEmpty && segRETail (cs.dropWhile Char.isDigit)

/-- The stripped lines of the model response (ui.py line 140). -/
def linesOf (text : String) : List String :=
  (splitLinesPy text).map trimPy

/-- Primary pattern: lines matching `SEG_RE` (ui.py line 142). -/
def numberedSegs (text : String) : List String :=
  (linesOf text).filter segREMatch

/-- Python `ln.lstrip("-• ")`: drop the leading run of dashes, bullets, spaces. -/
def stripBulletSp (s : String) : String :=
  String.mk (s.toList.dropWhile fun c => c == '-' || c == '•' || c == ' ')

/-- First fallback (ui.py lines 144-145): lines containing
`f"{row_idx}a"` case-insensitively, with bullet prefixes stripped. -/
def relaxedSegs (rowIdx : ℕ) (text : String) : List String :=
  let relaxed := (linesOf text).filter fun ln =>
    strContains (toLowerPy ln) (toString rowIdx ++ "a")
  relaxed.map fun ln => trimPy (stripBulletSp ln)

/-- Python `re.sub(r"^[-•\s]+", "", ln)`: drop the leading run of dashes,
bullets and whitespace. -/
def stripBulletWs (s : String) : String :=
  String.mk (s.toList.dropWhile fun c => c == '-' || c == '•' || c.isWhitespace)

/-- Relabel the i-th cleaned bullet line as `f"{row_idx}{chr(97+i)} {txt}"`. -/
def bulletLabel (rowIdx : ℕ) : ℕ → List String → List String
  | _, [] => []
  | i, txt :: rest =>
    ((toString rowIdx).push (Char.ofNat (97 + i)) ++ " " ++ txt)
      :: bulletLabel rowIdx (i + 1) rest

/-- Second fallback (ui.py lines 146-149): bullet-prefixed lines, cleaned
and relabeled sequentially. -/
def bulletSegs (rowIdx : ℕ) (text : String) : List String :=
  let bullets := (linesOf text).filter fun ln =>
    match ln.toList.dropWhile Char.isWhitespace with
    | [] => false
    | c :: _ => c == '-' || c == '•'
  bulletLabel rowIdx 0 (bullets.map stripBulletWs)

/-- The sentinel claim (ui.py line 151). -/
def sentinelSeg (rowIdx : ℕ) : String :=
  (toString rowIdx).push 'a' ++ " <MODEL RETURNED NO SEGMENTS>"

/-- Deduplication loop (ui.py lines 153-161): keep segments until a
label (first whitespace token) repeats, then stop consuming. -/
def dedupByLabel (seen : List String) : List String → List String
  | [] => []
  | seg :: rest =>
    let label := firstToken seg
    if seen.contains label then []
    else seg :: dedupByLabel (label :: seen) rest

/-- Embedding of `seg_via_llm` (ui.py lines 108-162) applied to the completion text
returned for `model`: the early return on an `"error"`-bearing response
from the default alias, then the three-stage fallback parse and the
deduplication loop. -/
def segViaLlm (rowIdx : ℕ) (model : String) (text : String) : List String :=
  let actualModel := aliasToModel model
  if actualModel == DEFAULT_ALIAS && strContains (toLowerPy text) "error" then []
  else
    let segments := numberedSegs text
    let segments := if segments.isEmpty then relaxedSegs rowIdx text else segments
    let segments := if segments.isEmpty then bulletSegs rowIdx text else segments
    let segments := if segments.isEmpty then [sentinelSeg rowIdx] else segments
    dedupByLabel [] segments

/-! ## _process_sentence (backend/main.py lines 89-165)

The per-claim loop: retrieval (`r.query`, an oracle here since it wraps
the embedding service and faiss), the two-tier selection
(`chooseCandidates`), the call to `assess` (an oracle returning either
the evidence list or the provider exception the source lets propagate),
the positional annotation loop, and the justification step (an oracle
returning `best_id` and `rationale`).  There is no `try/except` in the
source loop, so both a provider failure inside `assess` and an
`IndexError` in the annotation loop abort the whole row; the embedding
returns `Except`. -/

inductive RowErr where
  | provider (msg : String)
  | indexError
  deriving DecidableEq, Repr

/-- An element of the normalized `evs` list (main.py lines 129-135): the
remote strategy can hand back arbitrary JSON array elements, so an
element is either an evidence dict or some non-dict value, which the
annotation loop skips (`if not isinstance(ev, dict): continue`). -/
inductive PyVal where
  | dict (ev : EvDict)
  | other
  deriving DecidableEq, Repr

/-- The annotation applied to the evidence dict at position `idx`
(main.py lines 141-142): `ev["source_id"] = chosen[idx]["meta"].get("id", "")`
and `ev["source_type"] = chosen[idx]["meta"].get("type", "")`. -/
def annotEv (ev : EvDict) (c : Hit) : EvDict :=
  { ev with source_id := some (c.meta.id?.getD "")
            source_type := some (c.meta.type?.getD "") }

/-- Annotation loop of `_process_sentence` (main.py lines 136-143),
carrying the running `enumerate` index: non-dict elements are skipped
(but still consume an index); a dict element at an index outside
`chosen` raises `IndexError`. -/
def annotateFrom (chosen : List Hit) : ℕ → List PyVal → Except RowErr (List EvDict)
  | _, [] => .ok []
  | idx, .other :: rest => annotateFrom chosen (idx + 1) rest
  | idx, .dict ev :: rest =>
    match chosen.get? idx with
    | none => .error RowErr.indexError
    | some c => do
      let tail ← annotateFrom chosen (idx + 1) rest
      .ok (annotEv ev c :: tail)

/-- The annotation loop started at index 0. -/
def annotateEvidence (evs : List PyVal) (chosen : List Hit) : Except RowErr (List EvDict) :=
  annotateFrom chosen 0 evs

/-- One segment's result record (main.py lines 144-148 and 162-164). -/
structure SegmentResult where
  segment_id : String
  claim : String
  quoted_evidence : List EvDict
  best_evidence_id : Option String := none
  llm_rationale : Option String := none
  deriving DecidableEq, Repr

/-- The per-claim loop of `_process_sentence` (main.py lines 110-164),
carrying the `enumerate` index `i`.  `queryF` is `r.query(claim, k=12)`;
`assessF` is `assess(claim, passages, metadatas, ...)`, whose provider
exceptions (timeout, 5xx) propagate; `justifyF` is
`utils.call_llm_justification`, called only when some evidence was
assessed `"yes"` or `"partial"`. -/
def processSegmentsFrom (queryF : String → List Hit)
    (assessF : String → List String → List MetaD → Except String (List PyVal))
    (justifyF : String → List String → Option String × Option String)
    (rowId : ℕ) : ℕ → List String → Except RowErr (List SegmentResult)
  | _, [] => .ok []
  | i, claim :: rest => do
    let candidates := queryF claim
    let chosen := chooseCandidates candidates
    let passages := chosen.map (·.text)
    let metadatas := chosen.map (·.meta)
    let evs ← match assessF claim passages metadatas with
      | .error e => .error (RowErr.provider e)
      | .ok l => .ok l
    let evidence ← annotateEvidence evs chosen
    let segId := (toString rowId).push (Char.ofNat (97 + i))
    let top := (evidence.filter fun ev =>
      ev.assessment == "yes" || ev.assessment == "partial").map (·.quote)
    let seg :=
      if top.isEmpty then
        { segment_id := segId, claim := claim, quoted_evidence := evidence }
      else
        let j := justifyF claim top
        { segment_id := segId, claim := claim, quoted_evidence := evidence
          best_evidence_id := j.1, llm_rationale := j.2 }
    let tail ← processSegmentsFrom queryF assessF justifyF rowId (i + 1) rest
    .ok (seg :: tail)

/-- The segment loop of `_process_sentence` started at index 0. -/
def processSegments (queryF : String → List Hit)
    (assessF : String → List String → List MetaD → Except String (List PyVal))
    (justifyF : String → List String → Option String × Option String)
    (rowId : ℕ) (segments : List String) : Except RowErr (List SegmentResult) :=
  processSegmentsFrom queryF assessF justifyF rowId 0 segments

/-! ## Concrete inputs used by the counterexamples and witnesses -/

/-- A sentence-type chunk of the cited document, as `parser.tei_to_chunks`
emits it. -/
def citedChunkDoc : Doc :=
  { text := "cited sentence one", meta := { source? := some "a.xml", type? := some "sentence" } }

/-- First citing-table row for the cited work (Smith, 2020). -/
def smithRow1 : CsvRow :=
  { citedAuthor := "Smith", citedYear := 2020, teiSentence := "citing one", teiFile := "f1" }

/-- Second citing-table row for the same cited work. -/
def smithRow2 : CsvRow :=
  { citedAuthor := "Smith", citedYear := 2020, teiSentence := "citing two", teiFile := "f2" }

/-- The citing document `tei_and_csv_to_documents` builds from `smithRow2`. -/
def smithRow2Doc : Doc :=
  { text := "citing two", author? := some "Smith", year? := some 2020,
    teiFile? := some "f2", meta := { id? := some "f2" } }

/-- A one-chunk store for the retrieval witnesses. -/
def chunkA : Chunk := { text := "a", meta := { id? := some "a", type? := some "sentence" } }

/-- A one-hit faiss search result over `[chunkA]` with score 1. -/
def searchResA : List (ℚ × Fin ([chunkA].length)) := [(1, ⟨0, Nat.one_pos⟩)]

/-- C1: with 2 sentence-type and 10 other-type candidates ranked by score,
`_process_sentence` backfills from the head of the *full* candidate list,
so the two sentence hits are selected twice and only the top two
other-type hits appear, instead of the claimed "those 2 plus the top 4
other-type hits with no candidate appearing twice". -/
theorem chooseCandidates_backfill_duplicates :
    chooseCandidates backfillInput =
      [sentHit 12 "s1", sentHit 11 "s2", sentHit 12 "s1", sentHit 11 "s2",
       paraHit 10 "o1", paraHit 9 "o2"] ∧
    ¬ (chooseCandidates backfillInput).Nodup := by
  constructor
  · rfl
  · decide

/-- C4: `build_all` does not build the per-paper index from the cited
document's chunks, and does not group the citing-table rows: each
CSV-derived document is indexed on its own (later rows overwriting
earlier ones under the same `author-year` key), so the `Smith-2020`
index holds only the second row's citing sentence, not the cited
document's chunk; only the `"default"` index covers the sentence-type
chunks. -/
theorem buildAll_per_paper_uses_citing_row :
    buildAll none [citedChunkDoc] [smithRow1, smithRow2] =
      [("Smith-2020", [smithRow2Doc]), ("default", [citedChunkDoc])] ∧
    [smithRow2Doc] ≠ [citedChunkDoc] := by
  constructor
  · rfl
  · decide

/-- C2 counterexample: with two claim segments in a row, a provider error
("HTTP 500") raised while adjudicating the first claim aborts the whole
row: `_process_sentence` propagates the exception instead of recording an
empty-evidence result for the failed claim and continuing with its
sibling. -/
theorem processSegments_provider_error_aborts :
    processSegments (fun _ => [])
      (fun c _ _ => if c == "c1" then Except.error "HTTP 500" else Except.ok [])
      (fun _ _ => (none, none)) 0 ["c1", "c2"]
      = Except.error (RowErr.provider "HTTP 500") := by
  rfl

/-- C2 (amended): a provider timeout or 5xx raised while adjudicating a
claim propagates out of `_process_sentence` and aborts the row — shown
here for the first claim of the row: the error is returned as-is, no
sibling claim is processed and no result is recorded.  Only a JSON-parse
failure inside the remote strategy degrades to an empty evidence list. -/
theorem processSegments_first_claim_provider_error
    (queryF : String → List Hit)
    (assessF : String → List String → List MetaD → Except String (List PyVal))
    (justifyF : String → List String → Option String × Option String)
    (rowId : ℕ) (claim : String) (rest : List String) (e : String)
    (h : assessF claim ((chooseCandidates (queryF claim)).map (·.text))
          ((chooseCandidates (queryF claim)).map (·.meta)) = Except.error e) :
    processSegments queryF assessF justifyF rowId (claim :: rest)
      = Except.error (RowErr.provider e) := by
  simp only [processSegments, processSegmentsFrom, h]
  rfl

/-- Witness for the amended C2 theorem at a concrete row. -/
theorem processSegments_first_claim_provider_error_witness :
    processSegments (fun _ => [])
      (fun _ _ _ => Except.error "boom")
      (fun _ _ => (none, none)) 0 ["c1"]
      = Except.error (RowErr.provider "boom") :=
  processSegments_first_claim_provider_error
    (fun _ => []) (fun _ _ _ => Except.error "boom") (fun _ _ => (none, none))
    0 "c1" [] "boom" rfl

/-- C3 counterexample: the response text `"error"` matches none of the
three fallback patterns, yet `seg_via_llm` on the default alias returns
the empty list instead of the sentinel claim, because of the early
return `if actual_model == DEFAULT_ALIAS and "error" in text.lower()`. -/
theorem segViaLlm_error_text_returns_empty :
    segViaLlm 0 "alias-large" "error" = [] ∧
    numberedSegs "error" = [] ∧
    relaxedSegs 0 "error" = [] ∧
    bulletSegs 0 "error" = [] := by
  refine ⟨rfl, rfl, rfl, rfl⟩

/-- The deduplication loop never empties a non-empty segment list: the
first segment's label cannot have been seen already. -/
theorem dedupByLabel_ne_nil (l : List String) (h : l ≠ []) :
    dedupByLabel [] l ≠ [] := by
  cases l with
  | nil => exact absurd rfl h
  | cons a rest => simp [dedupByLabel]

/-- C3 (amended): `seg_via_llm` returns a non-empty list — and, when the
model output matches none of the three fallback patterns, exactly the
single sentinel claim — except when the resolved model is the default
alias and the response text contains `"error"` case-insensitively, in
which case it returns the empty list. -/
theorem segViaLlm_nonempty_unless_error_guard
    (rowIdx : ℕ) (model : String) (text : String)
    (hguard : (aliasToModel model == DEFAULT_ALIAS && strContains (toLowerPy text) "error") = false) :
    segViaLlm rowIdx model text ≠ [] ∧
    (numberedSegs text = [] → relaxedSegs rowIdx text = [] → bulletSegs rowIdx text = [] →
      segViaLlm rowIdx model text = [sentinelSeg rowIdx]) := by
  constructor
  · simp only [segViaLlm, hguard, Bool.false_eq_true, if_false]
    apply dedupByLabel_ne_nil
    by_cases h1 : (numberedSegs text).isEmpty
    · by_cases h2 : (relaxedSegs rowIdx text).isEmpty
      · by_cases h3 : (bulletSegs rowIdx text).isEmpty
        · simp [h1, h2, h3]
        · simp [h1, h2, h3]
          exact fun h => h3 (by simp [h])
      · simp [h1, h2]
        exact fun h => h2 (by simp [h])
    · simp [h1]
      exact fun h => h1 (by simp [h])
  · intro h1 h2 h3
    simp only [segViaLlm, hguard, Bool.false_eq_true, if_false]
    simp [h1, h2, h3, dedupByLabel]

/-- Witness for the amended C3 theorem: a pattern-free response under a
non-default model yields exactly the sentinel claim. -/
theorem segViaLlm_nonempty_unless_error_guard_witness :
    segViaLlm 7 "alias-llama3-huge" "gibberish" = [sentinelSeg 7] :=
  (segViaLlm_nonempty_unless_error_guard 7 "alias-llama3-huge" "gibberish" (by decide)).2
    (by decide) (by decide) (by decide)

/-- A batch on which the embedding call errors makes `embed_documents`
error (the source re-raises the first failing batch's exception). -/
theorem embedBatchesGo_not_ok (f : List String → Except String (List (List ℚ))) :
    ∀ bs : List (List String), (∃ b ∈ bs, ∃ e, f b = Except.error e) →
      (embedBatchesGo f bs).isOk = false := by
  intro bs
  induction bs with
  | nil => rintro ⟨b, hb, _⟩; cases hb
  | cons b rest ih =>
    rintro ⟨b', hb', e, he⟩
    cases hfb : f b with
    | error e' =>
      simp only [embedBatchesGo, hfb]
      rfl
    | ok vs =>
      rcases List.mem_cons.mp hb' with hbb | hbr
      · subst hbb
        rw [hfb] at he
        cases he
      · have hrest := ih ⟨b', hbr, e, he⟩
        cases hr : embedBatchesGo f rest with
        | error e'' =>
          simp only [embedBatchesGo, hfb, hr]
          rfl
        | ok vss => rw [hr] at hrest; exact Bool.noConfusion hrest

/-- C5: if the embedding call errors for any batch of the (truncated)
chunk texts, `Retriever.build` aborts with that error: it never returns a
new retriever state, so the caller's index and chunk list are unchanged
and no index file is written (the source raises before the assignments
and the `faiss.write_index` call on retriever.py lines 42-44). -/
theorem buildRet_aborts_on_embedding_error
    (maxSentences : Option ℕ) (normalizeRows : List (List ℚ) → List (List ℚ))
    (embedBatch : List String → Except String (List (List ℚ))) (chunks : List Chunk)
    (h : ∃ b ∈ batchesOf ((filteredChunks maxSentences chunks).map (·.text)),
          ∃ e, embedBatch b = Except.error e) :
    (buildRet maxSentences normalizeRows embedBatch chunks).isOk = false := by
  have h2 := embedBatchesGo_not_ok embedBatch _ h
  cases hE : embedBatchesGo embedBatch
      (batchesOf ((filteredChunks maxSentences chunks).map (·.text))) with
  | error e =>
    simp only [buildRet, embedDocuments, hE]
    rfl
  | ok vs => rw [hE] at h2; exact Bool.noConfusion h2

/-- Witness for the C5 theorem: a single-chunk build whose only batch
errors. -/
theorem buildRet_aborts_on_embedding_error_witness :
    (buildRet none id (fun _ => Except.error "boom")
      [{ text := "t", meta := {} }]).isOk = false :=
  buildRet_aborts_on_embedding_error none id (fun _ => Except.error "boom")
    [{ text := "t", meta := {} }]
    ⟨["t"], by simp [filteredChunks, batchesOf], "boom", rfl⟩

/-- C6: when the model response is not parseable JSON (`json.loads`
fails), the remote adjudication strategy returns the empty evidence list
and does not raise: the bare `except` on nli.py lines 132-134 turns the
parse failure into `[]`. -/
theorem assessRemote_nonjson_empty
    (completionF : String → List String → List MetaD → String)
    (parse : String → Option Json) (claim : String)
    (passages : List String) (metadatas : List MetaD)
    (h : parse (completionF claim passages metadatas) = none) :
    assessRemote completionF parse claim passages metadatas = Json.arr [] := by
  unfold assessRemote
  rw [h]

/-- Witness for the C6 theorem on a concrete non-JSON response. -/
theorem assessRemote_nonjson_empty_witness :
    assessRemote (fun _ _ _ => "I could not find evidence.") (fun _ => none)
      "c" ["p"] [{}] = Json.arr [] :=
  assessRemote_nonjson_empty (fun _ _ _ => "I could not find evidence.")
    (fun _ => none) "c" ["p"] [{}] rfl

/-- The local strategy's label mapping only produces the three values
`"yes"`, `"no"`, `"circumstantial"`. -/
theorem labelToAssessment_cases (l : String) :
    labelToAssessment l = "yes" ∨ labelToAssessment l = "no" ∨
      labelToAssessment l = "circumstantial" := by
  unfold labelToAssessment
  by_cases h1 : strContains l "entail" = true
  · simp [h1]
  · by_cases h2 : strContains l "contradict" = true
    · simp [h1, h2]
    · simp [h1, h2]

/-- C7 (amended): every EvidenceItem produced by the local strategy has
assessment in {yes, no, circumstantial}, determined by the best-scoring
label through the substring tests of nli.py line 85 (`"entail" in label`
maps to yes, else `"contradict" in label` maps to no, otherwise
circumstantial); the remote strategy returns the model's `"evidence"`
value unvalidated, so its assessments are whatever the parsed response
contains. -/
theorem assess_assessment_contract :
    (∀ (nliF : String → NliPred × List NliPred) (claim : String)
       (passages : List String) (metadatas : List MetaD) (ev : EvDict),
       ev ∈ assessLocal nliF claim passages metadatas →
       ((ev.assessment = "yes" ∨ ev.assessment = "no" ∨ ev.assessment = "circumstantial") ∧
        ev.assessment = labelToAssessment (toLowerPy (pyMaxPred
          (nliF (claim ++ " [SEP] " ++ ev.quote)).1
          (nliF (claim ++ " [SEP] " ++ ev.quote)).2).label))) ∧
    (∀ (completionF : String → List String → List MetaD → String)
       (parse : String → Option Json) (claim : String) (passages : List String)
       (metadatas : List MetaD) (kvs : List (String × Json)) (xs : List Json),
       parse (completionF claim passages metadatas) = some (Json.obj kvs) →
       jsonGet kvs "evidence" = some (Json.arr xs) →
       assessRemote completionF parse claim passages metadatas = Json.arr xs) := by
  constructor
  · intro nliF claim passages metadatas ev hmem
    simp only [assessLocal, List.mem_filterMap] at hmem
    obtain ⟨pm, hpm, heq⟩ := hmem
    by_cases hs : (pyMaxPred (nliF (claim ++ " [SEP] " ++ pm.1)).1
        (nliF (claim ++ " [SEP] " ++ pm.1)).2).score < THRESHOLD
    · rw [if_pos hs] at heq
      exact absurd heq (by simp)
    · rw [if_neg hs] at heq
      obtain rfl := Option.some.inj heq
      exact ⟨labelToAssessment_cases _, rfl⟩
  · intro completionF parse claim passages metadatas kvs xs h1 h2
    unfold assessRemote
    rw [h1]
    show (jsonGet kvs "evidence").getD (Json.arr []) = Json.arr xs
    rw [h2]
    rfl

/-- C7 counterexample: (a) on a best label `"entails"` — which contains
neither `"entailment"` nor `"contradiction"` — the local strategy outputs
assessment `"yes"`, where the claimed mapping ("label containing
'entailment' maps to yes, containing 'contradiction' maps to no,
otherwise circumstantial") would give `"circumstantial"`; (b) the remote
strategy passes the model's evidence array through unvalidated, here with
assessment `"banana"`, outside {yes, partial, circumstantial, no}. -/
theorem assess_claimed_mapping_counterexample :
    (assessLocal (fun _ => (⟨"entails", 1⟩, [])) "c" ["p"] [{}]).map
        (fun ev => ev.assessment) = ["yes"] ∧
    strContains "entails" "entailment" = false ∧
    strContains "entails" "contradiction" = false ∧
    assessRemote (fun _ _ _ => "r")
      (fun _ => some (Json.obj
        [("evidence", Json.arr [Json.obj [("assessment", Json.str "banana")]])]))
      "c" [] [] = Json.arr [Json.obj [("assessment", Json.str "banana")]] ∧
    ("banana" ≠ "yes" ∧ "banana" ≠ "partial" ∧
     "banana" ≠ "circumstantial" ∧ "banana" ≠ "no") := by
  refine ⟨by decide, by decide, by decide, rfl, by decide⟩

/-- Witness for the C7 theorem on a concrete classifier label and a
concrete parsed response. -/
theorem assess_assessment_contract_witness :
    (({ quote := "p", assessment := "yes", score := some 1 } : EvDict) ∈
        assessLocal (fun _ => (⟨"ENTAILMENT", 1⟩, [])) "c" ["p"] [{}]) ∧
    (({ quote := "p", assessment := "yes", score := some 1 } : EvDict).assessment = "yes" ∨
     ({ quote := "p", assessment := "yes", score := some 1 } : EvDict).assessment = "no" ∨
     ({ quote := "p", assessment := "yes", score := some 1 } : EvDict).assessment = "circumstantial") ∧
    assessRemote (fun _ _ _ => "r")
      (fun _ => some (Json.obj [("evidence", Json.arr [])])) "c" [] [] = Json.arr [] := by
  have hmem : ({ quote := "p", assessment := "yes", score := some 1 } : EvDict) ∈
      assessLocal (fun _ => (⟨"ENTAILMENT", 1⟩, [])) "c" ["p"] [{}] := by decide
  exact ⟨hmem,
    (assess_assessment_contract.1 (fun _ => (⟨"ENTAILMENT", 1⟩, [])) "c" ["p"] [{}] _ hmem).1,
    assess_assessment_contract.2 (fun _ _ _ => "r")
      (fun _ => some (Json.obj [("evidence", Json.arr [])])) "c" [] []
      [("evidence", Json.arr [])] [] rfl rfl⟩

/-- Every hit the query result loop keeps clears the threshold, and its
score is one of the searched distances. -/
theorem queryLoop_mem (chunks : List Chunk) (m : ℚ) :
    ∀ (l : List (ℚ × Fin chunks.length)) (h : Hit), h ∈ queryLoop chunks m l →
      m ≤ h.score ∧ ∃ di ∈ l, h.score = di.1 := by
  intro l
  induction l with
  | nil => intro h hmem; simp [queryLoop] at hmem
  | cons di rest ih =>
    intro h hmem
    by_cases hlt : di.1 < m
    · rw [queryLoop, if_pos hlt] at hmem
      obtain ⟨h1, di', hdi', h2⟩ := ih h hmem
      exact ⟨h1, di', List.mem_cons_of_mem _ hdi', h2⟩
    · rw [queryLoop, if_neg hlt] at hmem
      rcases List.mem_cons.mp hmem with hh | hh
      · subst hh
        exact ⟨le_of_not_lt hlt, di, List.mem_cons_self _ _, rfl⟩
      · obtain ⟨h1, di', hdi', h2⟩ := ih h hh
        exact ⟨h1, di', List.mem_cons_of_mem _ hdi', h2⟩

/-- If every searched distance is below the threshold the query result
loop returns the empty list. -/
theorem queryLoop_nil_of_all_lt (chunks : List Chunk) (m : ℚ) :
    ∀ l : List (ℚ × Fin chunks.length), (∀ di ∈ l, di.1 < m) →
      queryLoop chunks m l = [] := by
  intro l
  induction l with
  | nil => intro _; rfl
  | cons di rest ih =>
    intro hall
    rw [queryLoop, if_pos (hall di (List.mem_cons_self _ _))]
    exact ih fun di' hdi' => hall di' (List.mem_cons_of_mem _ hdi')

/-- C8: over a faiss search result sorted by descending distance (the
faiss contract for an inner-product index), every hit `Retriever.query`
returns has score at least `min_score`, the hits are sorted by
descending score, and when the best match is strictly below `min_score`
the result is the empty list. -/
theorem query_hits_threshold_sorted (chunks : List Chunk) (minScore : ℚ)
    (searchRes : List (ℚ × Fin chunks.length))
    (hsorted : searchRes.Pairwise fun a b => b.1 ≤ a.1) :
    (∀ h ∈ queryLoop chunks minScore searchRes, minScore ≤ h.score) ∧
    (queryLoop chunks minScore searchRes).Pairwise (fun a b => b.score ≤ a.score) ∧
    (∀ p ∈ searchRes.head?, p.1 < minScore →
      queryLoop chunks minScore searchRes = []) := by
  refine ⟨fun h hm => (queryLoop_mem chunks minScore searchRes h hm).1, ?_, ?_⟩
  · induction hsorted with
    | nil => exact List.Pairwise.nil
    | @cons di rest hrel _ ih =>
      by_cases hlt : di.1 < minScore
      · rw [queryLoop, if_pos hlt]
        exact ih
      · rw [queryLoop, if_neg hlt]
        refine List.Pairwise.cons ?_ ih
        intro h' hm'
        obtain ⟨_, di', hdi', h2⟩ := queryLoop_mem chunks minScore rest h' hm'
        calc h'.score = di'.1 := h2
        _ ≤ di.1 := hrel di' hdi'
  · intro p hp hlt
    cases searchRes with
    | nil => rfl
    | cons di rest =>
      have hpd : di = p := by simpa using hp
      subst hpd
      rw [queryLoop, if_pos hlt]
      refine queryLoop_nil_of_all_lt chunks minScore rest fun di' hdi' => ?_
      calc di'.1 ≤ di.1 := (List.pairwise_cons.mp hsorted).1 di' hdi'
      _ < minScore := hlt

/-- Witness for the C8 theorem on a one-element search result. -/
theorem query_hits_threshold_sorted_witness :
    (searchResA.Pairwise fun a b => b.1 ≤ a.1) ∧
    (queryLoop [chunkA] 0 searchResA).Pairwise (fun a b => b.score ≤ a.score) :=
  ⟨List.pairwise_singleton _ _,
   (query_hits_threshold_sorted [chunkA] 0 searchResA (List.pairwise_singleton _ _)).2.1⟩

/-- The annotation loop on all-dict evidence, from a running index that
is still within `chosen`: it fails with `IndexError` as soon as the items
outrun `chosen`, and otherwise pairs each item with the candidate at the
same position. -/
theorem annotateFrom_dicts (chosen : List Hit) :
    ∀ (ds : List EvDict) (idx : ℕ), idx ≤ chosen.length →
      (chosen.length < idx + ds.length →
        annotateFrom chosen idx (ds.map PyVal.dict) = Except.error RowErr.indexError) ∧
      (idx + ds.length ≤ chosen.length →
        annotateFrom chosen idx (ds.map PyVal.dict) =
          Except.ok (List.zipWith annotEv ds (chosen.drop idx))) := by
  intro ds
  induction ds with
  | nil =>
    intro idx hle
    refine ⟨fun hlt => absurd hlt (by simp only [List.length_nil]; omega), fun _ => ?_⟩
    simp [annotateFrom]
  | cons d ds ih =>
    intro idx hle
    constructor
    · intro hlt
      cases hg : chosen[idx]? with
      | none => simp [annotateFrom, hg]
      | some c =>
        have hidx : idx < chosen.length := by
          by_contra hc
          rw [List.getElem?_eq_none (by omega)] at hg
          cases hg
        have h1 := (ih (idx + 1) (by omega)).1
          (by simp only [List.length_cons] at hlt; omega)
        simp [annotateFrom, hg, h1]
        rfl
    · intro hle2
      have hidx : idx < chosen.length := by
        simp only [List.length_cons] at hle2; omega
      have hg : chosen[idx]? = some chosen[idx] := List.getElem?_eq_getElem hidx
      have h2 := (ih (idx + 1) (by omega)).2
        (by simp only [List.length_cons] at hle2 ⊢; omega)
      simp only [List.map, annotateFrom, List.get?_eq_getElem?, hg, h2]
      rw [List.drop_eq_getElem_cons hidx]
      rfl

/-- C9 (amended): in `_process_sentence` each evidence dict is annotated
with `source_id` and `source_type` from the chosen candidate at the same
positional index, and for an all-dict adjudicator output longer than the
chosen list the annotation loop indexes past its end and the row fails
with `IndexError`.  (A non-dict element is skipped by the
`isinstance` guard before the indexing, while still consuming an index,
so outputs whose overflow elements are not dicts do not fail.) -/
theorem annotateEvidence_positional_dicts (chosen : List Hit) (ds : List EvDict) :
    (chosen.length < ds.length →
      annotateEvidence (ds.map PyVal.dict) chosen = Except.error RowErr.indexError) ∧
    (ds.length ≤ chosen.length →
      annotateEvidence (ds.map PyVal.dict) chosen =
        Except.ok (List.zipWith annotEv ds chosen)) := by
  have h := annotateFrom_dicts chosen ds 0 (Nat.zero_le _)
  simpa [annotateEvidence] using h

/-- C9 counterexample: an adjudicator output longer than the chosen list
whose overflow element is not a dict does not fail with `IndexError`:
the non-dict element is skipped before the out-of-range indexing, and
the row result is produced. -/
theorem annotateEvidence_nondict_overflow_ok :
    annotateEvidence [PyVal.dict {}, PyVal.other] [sentHit 1 "a"] =
      Except.ok [{ source_id := some "a", source_type := some "sentence" }] ∧
    ([PyVal.dict {}, PyVal.other].length > ([sentHit 1 "a"] : List Hit).length) := by
  exact ⟨rfl, by decide⟩

/-- Witness for the amended C9 theorem: two evidence dicts against one
chosen candidate fail with `IndexError`. -/
theorem annotateEvidence_positional_dicts_witness :
    (([sentHit 1 "a"] : List Hit).length < ([{}, {}] : List EvDict).length) ∧
    annotateEvidence (([{}, {}] : List EvDict).map PyVal.dict) [sentHit 1 "a"] =
      Except.error RowErr.indexError :=
  ⟨by decide, (annotateEvidence_positional_dicts [sentHit 1 "a"] [{}, {}]).1 (by decide)⟩

/-- The two textually identical result loops of `query` and `query_many`
compute the same function. -/
theorem queryManyLoop_eq_queryLoop (chunks : List Chunk) (m : ℚ) :
    ∀ l : List (ℚ × Fin chunks.length), queryManyLoop chunks m l = queryLoop chunks m l := by
  intro l
  induction l with
  | nil => rfl
  | cons di rest ih =>
    by_cases h : di.1 < m <;> simp [queryManyLoop, queryLoop, h, ih]

/-- C10 counterexample: at the empty text list — with an embedding
provider that is visibly a deterministic per-text function — the source
reshapes the empty embedding matrix to the single zero-length row and
searches it, failing faiss's dimension assertion on an index of
dimension 1, so `query_many([], k)` raises instead of returning the
empty per-text result list `[query(t, k) for t in []] = []`. -/
theorem queryMany_empty_texts_fails :
    queryManyR (fun ts => ts.map fun _ => [(1 : ℚ)]) id [chunkA] 0
        (fun v _ => if v.length == 1 then Except.ok searchResA
          else Except.error "faiss: assert d == self.d failed") [] 5
      = Except.error "faiss: assert d == self.d failed" ∧
    (([] : List String).mapM fun t =>
        queryR (fun ts => ts.map fun _ => [(1 : ℚ)]) id [chunkA] 0
          (fun v _ => if v.length == 1 then Except.ok searchResA
            else Except.error "faiss: assert d == self.d failed") t 5)
      = Except.ok ([] : List (List Hit)) ∧
    Except.error "faiss: assert d == self.d failed" ≠
      Except.ok ([] : List (List Hit)) := by
  exact ⟨rfl, rfl, fun h => Except.noConfusion h⟩

/-- Under a deterministic per-text provider, `query` on one text is the
row search of that text's normalized embedding followed by the result
loop. -/
theorem queryR_det
    (f : String → List ℚ) (embedL : List String → List (List ℚ))
    (normalizeV : List ℚ → List ℚ) (chunks : List Chunk) (minScore : ℚ)
    (search : List ℚ → ℕ → Except String (List (ℚ × Fin chunks.length))) (k : ℕ)
    (hdet : ∀ ts, embedL ts = ts.map f) (t : String) :
    queryR embedL normalizeV chunks minScore search t k =
      match search (normalizeV (f t)) k with
      | .error e => .error e
      | .ok r => .ok (queryLoop chunks minScore r) := by
  unfold queryR
  rw [hdet [t]]
  cases hs : search (normalizeV (f t)) k with
  | error e =>
    simp only [searchRows, hs]
    rfl
  | ok r =>
    simp [searchRows, hs]
    rfl

/-- C10 (amended): when the embedding provider behaves as a deterministic
per-text function `f` (`utils.embed(ts) = [f(t) for t in ts]`) and the
text list is non-empty, `query_many` is exactly the in-order sequencing
of the per-text `query` calls: on success the i-th result row equals
`query(texts[i], k)`, and a search failure surfaces as the same first
error.  (At `texts = []` the two sides differ: `query_many` searches the
reshaped single zero-length row instead of returning `[]`.) -/
theorem queryMany_refines_query
    (f : String → List ℚ) (embedL : List String → List (List ℚ))
    (normalizeV : List ℚ → List ℚ) (chunks : List Chunk) (minScore : ℚ)
    (search : List ℚ → ℕ → Except String (List (ℚ × Fin chunks.length)))
    (texts : List String) (k : ℕ)
    (hdet : ∀ ts, embedL ts = ts.map f) (htexts : texts ≠ []) :
    queryManyR embedL normalizeV chunks minScore search texts k =
      texts.mapM fun t => queryR embedL normalizeV chunks minScore search t k := by
  have core : ∀ ts : List String,
      (do
        let searched ← searchRows search k (ts.map fun t => normalizeV (f t))
        Except.ok (searched.map fun r => queryManyLoop chunks minScore r)
        : Except String (List (List Hit))) =
      ts.mapM fun t => queryR embedL normalizeV chunks minScore search t k := by
    intro ts
    induction ts with
    | nil => rfl
    | cons t rest ih =>
      rw [List.mapM_cons, ← ih, queryR_det f embedL normalizeV chunks minScore search k hdet t]
      cases hs : search (normalizeV (f t)) k with
      | error e =>
        simp [searchRows, hs]
        try rfl
      | ok r =>
        cases hrest : searchRows search k (rest.map fun t => normalizeV (f t)) with
        | error e2 =>
          simp [searchRows, hs, hrest]
          try rfl
        | ok srows =>
          simp [searchRows, hs, hrest, queryManyLoop_eq_queryLoop]
          try rfl
  unfold queryManyR
  rw [hdet texts]
  have hne : (texts.map f).isEmpty = false := by
    cases texts with
    | nil => exact absurd rfl htexts
    | cons t rest => rfl
  simp only [hne, Bool.false_eq_true, if_false, List.map_map]
  exact core texts

/-- Witness for the amended C10 theorem on a two-text query batch. -/
theorem queryMany_refines_query_witness :
    queryManyR (fun ts => ts.map fun _ => [(1 : ℚ)]) id [chunkA] 0
        (fun _ _ => Except.ok searchResA) ["x", "y"] 5 =
      (["x", "y"].mapM fun t =>
        queryR (fun ts => ts.map fun _ => [(1 : ℚ)]) id [chunkA] 0
          (fun _ _ => Except.ok searchResA) t 5) :=
  queryMany_refines_query (fun _ => [(1 : ℚ)]) (fun ts => ts.map fun _ => [(1 : ℚ)])
    id [chunkA] 0 (fun _ _ => Except.ok searchResA) ["x", "y"] 5
    (fun _ => rfl) (List.cons_ne_nil _ _)
